import Mathlib

/-!
Shallow embedding of the cTrader trade copier core, translated from
`src/trade_copier_single.py`, `src/config.py`, `src/config_helper.py` and
`src/trade_copier.py`.

Modelling conventions: volumes and identifiers are integers (protocol
micro-units); Python floats are modelled as rationals; Python `int(x)`
truncation toward zero is `pyInt`; Python `//` floor division on integers is
`Int.fdiv`; dictionaries are `Option`-valued lookups or association lists;
Python exceptions are modelled with `Except`; the self-recursive
`_calculate_dynamic_pip_volume` carries an explicit recursion-depth fuel
mirroring Python's finite recursion limit (Python raises `RecursionError`
when the limit is reached; the model returns that error at fuel `0`).
-/

/-- Python `int(x)` applied to a float: truncation toward zero. -/
def pyInt (q : ℚ) : ℤ := if 0 ≤ q then ⌊q⌋ else ⌈q⌉

/-- Truncating a nonnegative quotient of naturals agrees with natural division
(Python `int(a / b)` for nonnegative `a`, positive `b`; also the `b = 0` corner
where the rational quotient is `0`). -/
theorem pyInt_natCast_div (a b : ℕ) : (pyInt ((a : ℚ) / (b : ℚ))).toNat = a / b := by
  rcases Nat.eq_zero_or_pos b with hb | hb
  · subst hb
    simp [pyInt]
  · have hq : (0 : ℚ) ≤ (a : ℚ) / (b : ℚ) := by positivity
    rw [pyInt, if_pos hq, Int.floor_toNat, Nat.floor_div_nat, Nat.floor_natCast]

/-- The configured minimum order volume in micro-units, `MIN_LOT_SIZE`
(src/config.py line 119). -/
def MIN_LOT_SIZE : ℕ := 100

/-- The configured safety ceiling `MAX_LOT_MULTIPLIER = 2.0`
(src/config.py line 123). -/
def MAX_LOT_MULTIPLIER : ℚ := 2

/-- The configured global risk scaling `DYNAMIC_PIP_VOLUME_RATIO = 0.5`
(src/config.py line 184). -/
def dynamicPipVolumeFactor : ℚ := 1/2

/-- The configured per-instrument static multiplier table
`LOT_SIZE_MULTIPLIERS` (src/config.py lines 71-108). -/
def LOT_SIZE_MULTIPLIERS (symbol : String) : Option ℚ :=
  if symbol = "EURUSD" then some (1/2)
  else if symbol = "GBPUSD" then some (1/2)
  else if symbol = "USDJPY" then some (1/2)
  else if symbol = "USDCHF" then some (1/2)
  else if symbol = "AUDUSD" then some (1/2)
  else if symbol = "USDCAD" then some (1/2)
  else if symbol = "NZDUSD" then some (1/2)
  else if symbol = "EURGBP" then some (1/2)
  else if symbol = "EURJPY" then some (1/2)
  else if symbol = "GBPJPY" then some (1/2)
  else if symbol = "XAUUSD" then some (1/4)
  else if symbol = "GOLD" then some (1/4)
  else if symbol = "XAGUSD" then some (1/2)
  else if symbol = "SILVER" then some (1/2)
  else if symbol = "US30" then some (1/10)
  else if symbol = "SPX500" then some (1/10)
  else if symbol = "NAS100" then some (1/10)
  else if symbol = "GER30" then some (1/10)
  else if symbol = "UK100" then some (1/10)
  else if symbol = "JPN225" then some (1/10)
  else if symbol = "CRUDE" then some (1/2)
  else if symbol = "BRENT" then some (1/2)
  else if symbol = "NGAS" then some (3/10)
  else if symbol = "BTCUSD" then some (1/10)
  else if symbol = "ETHUSD" then some (1/5)
  else if symbol = "LTCUSD" then some (3/10)
  else if symbol = "XRPUSD" then some (1/2)
  else none

/-- The configured `DEFAULT_LOT_MULTIPLIER = 0.5` (src/config.py line 111). -/
def DEFAULT_LOT_MULTIPLIER : ℚ := 1/2

/-- The configured `GLOBAL_LOT_MULTIPLIER = None` (src/config.py line 115). -/
def GLOBAL_LOT_MULTIPLIER : Option ℚ := none

/-- The multiplier selection of `calculate_slave_volume`
(src/config_helper.py lines 24-27): global override when set, otherwise the
per-instrument table entry, otherwise the default. -/
def selectFallbackMultiplier (symbol : String) : ℚ :=
  match GLOBAL_LOT_MULTIPLIER with
  | some g => g
  | none => (LOT_SIZE_MULTIPLIERS symbol).getD DEFAULT_LOT_MULTIPLIER

/-- Full `calculate_slave_volume` (src/config_helper.py lines 9-36): convert
lots to micro-units, pick the multiplier, truncate, floor at the hard-coded
1000 micro-units, and return (slave volume in lots, multiplier used). -/
def calculate_slave_volume (symbol : String) (masterVolumeLots : ℚ) : ℚ × ℚ :=
  let masterVolumeMicro : ℤ := pyInt (masterVolumeLots * 100000)
  let multiplier := selectFallbackMultiplier symbol
  let slaveVolumeMicro : ℤ := pyInt ((masterVolumeMicro : ℚ) * multiplier)
  let slaveVolumeMicro := max 1000 slaveVolumeMicro
  ((slaveVolumeMicro : ℚ) / 100000, multiplier)

/-- The hard-coded name-to-id table of `_get_symbol_id`
(src/trade_copier_single.py lines 619-629). -/
def symbolMap (name : String) : Option ℕ :=
  if name = "EURUSD" then some 1
  else if name = "GBPUSD" then some 2
  else if name = "USDJPY" then some 3
  else if name = "USDCHF" then some 4
  else if name = "AUDUSD" then some 5
  else if name = "USDCAD" then some 6
  else if name = "NZDUSD" then some 7
  else if name = "XAUUSD" then some 41
  else if name = "GOLD" then some 41
  else if name = "XAGUSD" then some 42
  else if name = "SILVER" then some 42
  else if name = "BTCUSD" then some 43
  else if name = "ETHUSD" then some 44
  else if name = "US30" then some 45
  else if name = "SPX500" then some 46
  else if name = "NAS100" then some 47
  else if name = "CRUDE" then some 48
  else if name = "BRENT" then some 49
  else none

/-- Lookup of `_get_symbol_id` for a string argument
(src/trade_copier_single.py line 630): table hit, or the default `1`.
(The `isinstance(symbol_name, int)` arm of the Python default expression is
unreachable for the string arguments this method receives.) -/
def getSymbolId (name : String) : ℕ := (symbolMap name).getD 1

/-- The hard-coded id-to-name table of `_get_symbol_name`
(src/trade_copier_single.py lines 636-646). -/
def idToSymbol (i : ℕ) : Option String :=
  if i = 1 then some "EURUSD"
  else if i = 2 then some "GBPUSD"
  else if i = 3 then some "USDJPY"
  else if i = 4 then some "USDCHF"
  else if i = 5 then some "AUDUSD"
  else if i = 6 then some "USDCAD"
  else if i = 7 then some "NZDUSD"
  else if i = 41 then some "XAUUSD"
  else if i = 42 then some "XAGUSD"
  else if i = 43 then some "BTCUSD"
  else if i = 44 then some "ETHUSD"
  else if i = 45 then some "US30"
  else if i = 46 then some "SPX500"
  else if i = 47 then some "NAS100"
  else if i = 48 then some "CRUDE"
  else if i = 49 then some "BRENT"
  else none

/-- Full `_get_symbol_name` (src/trade_copier_single.py line 647):
table hit, or the fallback name built as in the f-string `SYMBOL_{id}`. -/
def getSymbolName (i : ℕ) : String := (idToSymbol i).getD ("SYMBOL_" ++ toString i)

/-- The sixteen distinct ids that appear in the hard-coded tables. -/
def mappedSymbolIds : List ℕ := [1, 2, 3, 4, 5, 6, 7, 41, 42, 43, 44, 45, 46, 47, 48, 49]

/-- Every key of the name-to-id table has length at most 6, so names of
length 7 or more always miss the table. -/
theorem symbolMap_eq_none_of_long (s : String) (h : 7 ≤ s.length) :
    symbolMap s = none := by
  have ne : ∀ t : String, t.length < 7 → ¬ s = t := by
    intro t ht hs
    subst hs
    omega
  unfold symbolMap
  rw [if_neg (ne "EURUSD" (by decide)), if_neg (ne "GBPUSD" (by decide)),
    if_neg (ne "USDJPY" (by decide)), if_neg (ne "USDCHF" (by decide)),
    if_neg (ne "AUDUSD" (by decide)), if_neg (ne "USDCAD" (by decide)),
    if_neg (ne "NZDUSD" (by decide)), if_neg (ne "XAUUSD" (by decide)),
    if_neg (ne "GOLD" (by decide)), if_neg (ne "XAGUSD" (by decide)),
    if_neg (ne "SILVER" (by decide)), if_neg (ne "BTCUSD" (by decide)),
    if_neg (ne "ETHUSD" (by decide)), if_neg (ne "US30" (by decide)),
    if_neg (ne "SPX500" (by decide)), if_neg (ne "NAS100" (by decide)),
    if_neg (ne "CRUDE" (by decide)), if_neg (ne "BRENT" (by decide))]

/-- Ids outside the sixteen mapped ones miss the id-to-name table. -/
theorem idToSymbol_eq_none (i : ℕ) (h : i ∉ mappedSymbolIds) :
    idToSymbol i = none := by
  have ne : ∀ k : ℕ, k ∈ mappedSymbolIds → ¬ i = k := by
    intro k hk hik
    exact h (hik ▸ hk)
  unfold idToSymbol
  rw [if_neg (ne 1 (by decide)), if_neg (ne 2 (by decide)),
    if_neg (ne 3 (by decide)), if_neg (ne 4 (by decide)),
    if_neg (ne 5 (by decide)), if_neg (ne 6 (by decide)),
    if_neg (ne 7 (by decide)), if_neg (ne 41 (by decide)),
    if_neg (ne 42 (by decide)), if_neg (ne 43 (by decide)),
    if_neg (ne 44 (by decide)), if_neg (ne 45 (by decide)),
    if_neg (ne 46 (by decide)), if_neg (ne 47 (by decide)),
    if_neg (ne 48 (by decide)), if_neg (ne 49 (by decide))]

/-- Instrument metadata kept per account, the SymbolData dataclass
(src/trade_copier_single.py lines 48-60). -/
structure SymbolData where
  symbol_id : ℕ
  symbol_name : String
  digits : ℕ
  pip_position : ℤ
  lot_size : ℕ
  base_asset_id : ℕ
  quote_asset_id : ℕ
  current_bid : ℚ := 0
  current_ask : ℚ := 0
  volume_step : ℤ := 100
deriving Repr, DecidableEq

/-- Asset metadata, the AssetData dataclass
(src/trade_copier_single.py lines 62-67). -/
structure AssetData where
  asset_id : ℕ
  name : String
  digits : ℕ
deriving Repr, DecidableEq

/-- The per-account reference state of the copier: symbol dictionary, asset
dictionary and deposit asset id (src/trade_copier_single.py lines 86-91). -/
structure AccountContext where
  symbols : ℕ → Option SymbolData
  assets : ℕ → Option AssetData
  depositAssetId : Option ℕ

/-- Master and slave reference state held by one copier instance. -/
structure CopierContext where
  master : AccountContext
  slave : AccountContext

/-- Pip value calculation, `_calculate_pip_value`
(src/trade_copier_single.py lines 857-925).  `none` models the `return None`
paths (prerequisites missing, or no prices on the cross-currency path); any
exception inside the Python `try` is likewise answered with `return None`. -/
def calculatePipValue (ctx : AccountContext) (symbolId : ℕ) : Option ℚ :=
  match ctx.symbols symbolId with
  | none => none
  | some symbol_data =>
    match ctx.depositAssetId with
    | none => none
    | some depId =>
      if depId = 0 then none
      else
        match ctx.assets depId with
        | none => none
        | some deposit_asset =>
          let quote_asset :=
            match ctx.assets symbol_data.quote_asset_id with
            | some qa => qa
            | none => deposit_asset
          let pip_size : ℚ := 1 / (10 : ℚ) ^ symbol_data.pip_position
          if quote_asset.asset_id = deposit_asset.asset_id then
            some (pip_size * symbol_data.lot_size)
          else
            if symbol_data.current_bid = 0 ∨ symbol_data.current_ask = 0 then none
            else
              let mid_price := (symbol_data.current_bid + symbol_data.current_ask) / 2
              some (pip_size / mid_price * symbol_data.lot_size)

/-- The Python exceptions that drive the volume-adjustment control flow. -/
inductive PyErr where
  | recursionError
  | attributeError
deriving Repr, DecidableEq

/-- Volume adjustment by pip-value parity, `_calculate_dynamic_pip_volume`
(src/trade_copier_single.py lines 548-614), with explicit recursion fuel.
The cache-consulting block that would compute the risk multiplier
(lines 553-580) is commented out in the source, so when both pip values are
available the method stores them in the cache and immediately recurses
(line 601) with nothing left to stop the recursion; at the recursion limit
Python raises RecursionError, which the `except` arm catches before invoking
the undefined method `_calculate_simple_multiplier_volume` (line 614),
raising AttributeError.  The same undefined method is invoked on the
fallback path (line 610).  The cache write itself has no effect on any
return value (nothing ever reads the cache), so it is not modelled. -/
def calcDynamicPipVolume (ctx : CopierContext) (symbol : String) (originalVolume : ℕ) :
    ℕ → Except PyErr ℕ
  | 0 => .error .recursionError
  | fuel + 1 =>
    let symbol_id := getSymbolId symbol
    match calculatePipValue ctx.master symbol_id, calculatePipValue ctx.slave symbol_id with
    | some _, some _ =>
      match calcDynamicPipVolume ctx symbol originalVolume fuel with
      | .ok v => .ok v
      | .error _ => .error .attributeError
    | _, _ => .error .attributeError

/-- Wrapper `_calculate_adjusted_volume`
(src/trade_copier_single.py lines 537-546): delegate to the dynamic pip
calculation and, when it raises, fall back to fifty percent of the original
volume floored at `MIN_LOT_SIZE`. -/
def calcAdjustedVolume (ctx : CopierContext) (symbol : String) (originalVolume : ℕ)
    (fuel : ℕ) : ℕ :=
  match calcDynamicPipVolume ctx symbol originalVolume fuel with
  | .ok v => v
  | .error _ => max MIN_LOT_SIZE (pyInt ((originalVolume : ℚ) * (1/2))).toNat

/-- The commented-out risk-multiplier computation of
`_calculate_dynamic_pip_volume` (src/trade_copier_single.py lines 560-570),
which is also the formula of spec section 4.3 steps 2-3: scale the pip-value
quotient by the configured global factor, clamp into
[0.001, MAX_LOT_MULTIPLIER], truncate the scaled volume and floor it at
`MIN_LOT_SIZE`. -/
def dynamicVolumeFormula (masterPipValue slavePipValue : ℚ) (originalVolume : ℕ) : ℕ :=
  let risk_multiplier := masterPipValue / slavePipValue * dynamicPipVolumeFactor
  let risk_multiplier := min risk_multiplier MAX_LOT_MULTIPLIER
  let risk_multiplier := max risk_multiplier (1/1000)
  max MIN_LOT_SIZE (pyInt ((originalVolume : ℚ) * risk_multiplier)).toNat

/-- Balance-percentage volume adjustment `_calculate_adjusted_volume` of the
dual-connection copier (src/trade_copier.py lines 384-404): risk amount from
the slave balance, ten micro-lots per dollar, floored at the local
`min_volume = 1000`. -/
def calcAdjustedVolumeBalance (slaveBalance lotPercentage : ℚ) : ℤ :=
  let risk_amount := slaveBalance * lotPercentage
  let micro_lots_per_dollar : ℚ := 10
  let adjusted := pyInt (risk_amount * micro_lots_per_dollar)
  max adjusted 1000

/-- Broker volume step resolution for close rounding
(src/trade_copier_single.py lines 461-463): the slave instrument's reported
step when the instrument is loaded, `MIN_LOT_SIZE` when it is not, and
`MIN_LOT_SIZE` again whenever the resulting step is nonpositive. -/
def effectiveStep (lookup : Option SymbolData) : ℤ :=
  let step_raw_units : ℤ :=
    match lookup with
    | some sd => sd.volume_step
    | none => MIN_LOT_SIZE
  if step_raw_units ≤ 0 then MIN_LOT_SIZE else step_raw_units

/-- The close-volume arithmetic of `_handle_positions_for_close`
(src/trade_copier_single.py lines 456-473): scale the observed master close
volume by the stored open ratio, truncate, round down to a multiple of the
step with Python floor division, and close the whole position when the
remainder would be at most one step. -/
def computeCloseVolume (masterCloseVolume : ℤ) (r : ℚ) (step : ℤ) (currentVolume : ℤ) : ℤ :=
  let raw_volume_to_close := pyInt ((masterCloseVolume : ℚ) * r)
  let volume_to_close := (Int.fdiv raw_volume_to_close step) * step
  if currentVolume - volume_to_close ≤ step then currentVolume else volume_to_close

/-- One open position of the slave reconcile response: position id plus the
symbol id and volume of its tradeData
(src/trade_copier_single.py lines 439-453). -/
structure PositionData where
  positionId : ℤ
  symbolId : ℕ
  volume : ℤ
deriving Repr, DecidableEq

/-- The association list `self.symbol_volume_ratio` mapping a symbol id to
the open ratio (src/trade_copier_single.py line 103). -/
def RatioMap : Type := List (ℕ × ℚ)

/-- Ratio lookup with the default of 1.0,
`self.symbol_volume_ratio.get(symbol_id, 1.0)`
(src/trade_copier_single.py line 457). -/
def lookupRatio (m : RatioMap) (symbolId : ℕ) : ℚ :=
  match List.find? (fun kv => kv.1 == symbolId) m with
  | some kv => kv.2
  | none => 1

/-- Ratio storage on open (src/trade_copier_single.py lines 511-513): the
ratio is recorded under the key produced by `_get_symbol_id` applied to the
symbol NAME, not under the execution event's own symbol id. -/
def storeOpenRatio (m : RatioMap) (symbolName : String) (r : ℚ) : RatioMap :=
  (getSymbolId symbolName, r) :: m

/-- Decision of `_handle_positions_for_close`
(src/trade_copier_single.py lines 431-493): find the first slave position on
the instrument, and when its id and volume are truthy emit a close request
(position id, close volume); `none` means no close request is sent. -/
def handlePositionsForClose (slaveSymbols : ℕ → Option SymbolData) (ratios : RatioMap)
    (positions : List PositionData) (symbolId : ℕ) (masterCloseVolume : ℤ) :
    Option (ℤ × ℤ) :=
  match List.find? (fun p => p.symbolId == symbolId) positions with
  | none => none
  | some position_to_close =>
    if position_to_close.positionId ≠ 0 ∧ position_to_close.volume ≠ 0 then
      let r := lookupRatio ratios symbolId
      let step_raw_units := effectiveStep (slaveSymbols symbolId)
      some (position_to_close.positionId,
        computeCloseVolume masterCloseVolume r step_raw_units position_to_close.volume)
    else none

/-- The tradeData of an order (src/trade_copier_single.py lines 363-367). -/
structure TradeData where
  symbolId : Option ℕ
  tradeSide : Option ℕ
  volume : Option ℤ
deriving Repr, DecidableEq

/-- The order sub-record of an execution event
(src/trade_copier_single.py lines 334-337). -/
structure OrderData where
  closingOrder : Bool
  tradeData : Option TradeData
deriving Repr, DecidableEq

/-- The deal sub-record of an execution event; closePositionDetail models the
string rendering of the optional detail field
(src/trade_copier_single.py lines 340-348). -/
structure DealData where
  symbolId : Option ℕ
  tradeSide : Option ℕ
  volume : Option ℤ
  closePositionDetail : Option String
deriving Repr, DecidableEq

/-- An execution event as consumed by `_handle_execution_event`
(src/trade_copier_single.py lines 305-412). -/
structure ExecutionEvent where
  ctidTraderAccountId : ℤ
  executionType : Option ℕ
  order : Option OrderData
  deal : Option DealData
deriving Repr, DecidableEq

/-- Python str.strip(): drop whitespace from both ends (modelled over the
character list so that it evaluates structurally). -/
def pyStrip (s : String) : String :=
  String.mk (((s.data.dropWhile Char.isWhitespace).reverse.dropWhile
    Char.isWhitespace).reverse)

/-- The close/open decision of `_handle_execution_event`
(src/trade_copier_single.py lines 328-356): `is_closing_order` starts from
the order's closingOrder flag and is promoted to true exactly when a deal is
present whose closePositionDetail is present and nonempty after stripping;
an empty or whitespace-only detail leaves the flag unchanged. -/
def isClosingOrderOf (order : Option OrderData) (deal : Option DealData) : Bool :=
  let fromOrder : Bool :=
    match order with
    | some o => o.closingOrder
    | none => false
  match deal with
  | none => fromOrder
  | some d =>
    match d.closePositionDetail with
    | none => fromOrder
    | some s => if pyStrip s = "" then fromOrder else true

/-- The two replication decisions an execution event can produce. -/
inductive Classification where
  | close
  | openPos
deriving Repr, DecidableEq

/-- Classification step of `_handle_execution_event`: only fill (3) and
partial-fill (4) execution types are classified at all
(src/trade_copier_single.py line 324); everything else is ignored. -/
def classifyExecution (e : ExecutionEvent) : Option Classification :=
  if e.executionType = some 3 ∨ e.executionType = some 4 then
    some (if isClosingOrderOf e.order e.deal then .close else .openPos)
  else none

/-- With the cache-reading block commented out, `_calculate_dynamic_pip_volume`
can never return a value: every evaluation ends in RecursionError (both pip
values available, unbounded self-recursion) or AttributeError (the undefined
`_calculate_simple_multiplier_volume`). -/
theorem calcDynamicPipVolume_isError (ctx : CopierContext) (symbol : String)
    (originalVolume : ℕ) :
    ∀ fuel : ℕ, ∃ e, calcDynamicPipVolume ctx symbol originalVolume fuel = .error e := by
  intro fuel
  induction fuel with
  | zero => exact ⟨.recursionError, rfl⟩
  | succ n ih =>
    obtain ⟨e, he⟩ := ih
    refine ⟨.attributeError, ?_⟩
    unfold calcDynamicPipVolume
    simp only [he]
    split <;> rfl

/-- C9: the single-connection `_calculate_adjusted_volume` is total and, the
dynamic pip path failing on every evaluation, always returns the hard-coded
fifty-percent fallback max(MIN_LOT_SIZE, int(originalVolume * 0.5)). -/
theorem c9_adjusted_volume_is_fifty_percent_fallback (ctx : CopierContext)
    (symbol : String) (originalVolume fuel : ℕ) :
    (∃ e, calcDynamicPipVolume ctx symbol originalVolume fuel = .error e) ∧
    calcAdjustedVolume ctx symbol originalVolume fuel =
      max MIN_LOT_SIZE (originalVolume / 2) := by
  obtain ⟨e, he⟩ := calcDynamicPipVolume_isError ctx symbol originalVolume fuel
  refine ⟨⟨e, he⟩, ?_⟩
  unfold calcAdjustedVolume
  rw [he]
  have h2 := pyInt_natCast_div originalVolume 2
  norm_num at h2
  rw [show ((originalVolume : ℚ) * (1/2)) = (originalVolume : ℚ) / 2 by ring, h2]

/-- C7: every returning path of both open-volume adjustments respects its
minimum-volume floor: the single-connection copier never returns less than
MIN_LOT_SIZE, and the dual-connection copier never returns less than its
local min_volume of 1000 micro-units. -/
theorem c7_minimum_volume_floor :
    (∀ (ctx : CopierContext) (symbol : String) (originalVolume fuel : ℕ),
      MIN_LOT_SIZE ≤ calcAdjustedVolume ctx symbol originalVolume fuel) ∧
    (∀ slaveBalance lotPercentage : ℚ,
      1000 ≤ calcAdjustedVolumeBalance slaveBalance lotPercentage ∧
      (MIN_LOT_SIZE : ℤ) ≤ calcAdjustedVolumeBalance slaveBalance lotPercentage) := by
  constructor
  · intro ctx symbol originalVolume fuel
    obtain ⟨e, he⟩ := calcDynamicPipVolume_isError ctx symbol originalVolume fuel
    unfold calcAdjustedVolume
    rw [he]
    exact le_max_left _ _
  · intro slaveBalance lotPercentage
    have h1000 : (1000 : ℤ) ≤ calcAdjustedVolumeBalance slaveBalance lotPercentage := by
      unfold calcAdjustedVolumeBalance
      exact le_max_right _ _
    exact ⟨h1000, le_trans (by norm_num [MIN_LOT_SIZE]) h1000⟩

/-- C3: the close volume computed by `_handle_positions_for_close` is either
an exact multiple of the step or exactly the current position volume. -/
theorem c3_close_volume_multiple_or_full (masterCloseVolume : ℤ) (r : ℚ)
    (step currentVolume : ℤ) (hr : 0 < r) (hstep : 0 < step) (hcur : 0 ≤ currentVolume) :
    (∃ k : ℤ, computeCloseVolume masterCloseVolume r step currentVolume = k * step) ∨
    computeCloseVolume masterCloseVolume r step currentVolume = currentVolume := by
  by_cases h :
      currentVolume - (Int.fdiv (pyInt ((masterCloseVolume : ℚ) * r)) step) * step ≤ step
  · right
    simp [computeCloseVolume, h]
  · left
    exact ⟨Int.fdiv (pyInt ((masterCloseVolume : ℚ) * r)) step,
      by simp [computeCloseVolume, h]⟩

/-- Witness for C3 at the E2E-3 sizes against a larger open position:
master closes 1500 at stored ratio one half with step 1000 while the slave
holds 3000. -/
theorem c3_close_volume_multiple_or_full_witness :
    (∃ k : ℤ, computeCloseVolume 1500 (1/2) 1000 3000 = k * 1000) ∨
    computeCloseVolume 1500 (1/2) 1000 3000 = 3000 :=
  c3_close_volume_multiple_or_full 1500 (1/2) 1000 3000 (by norm_num) (by norm_num)
    (by norm_num)

/-- C8: the step used by the close rounding is always strictly positive, and
a missing or nonpositive broker-reported step is replaced by MIN_LOT_SIZE,
which is the constant 100. -/
theorem c8_effective_step_positive :
    (∀ lookup : Option SymbolData, 0 < effectiveStep lookup) ∧
    effectiveStep none = (MIN_LOT_SIZE : ℤ) ∧
    (∀ sd : SymbolData, sd.volume_step ≤ 0 → effectiveStep (some sd) = (MIN_LOT_SIZE : ℤ)) ∧
    MIN_LOT_SIZE = 100 := by
  refine ⟨?_, ?_, ?_, rfl⟩
  · intro lookup
    cases lookup with
    | none => simp [effectiveStep, MIN_LOT_SIZE]
    | some sd =>
      simp only [effectiveStep, MIN_LOT_SIZE]
      split_ifs with h <;> omega
  · simp [effectiveStep, MIN_LOT_SIZE]
  · intro sd h
    simp [effectiveStep, h]

/-- A concrete instrument reporting a negative volume step. -/
def negStepSymbol : SymbolData :=
  { symbol_id := 41, symbol_name := "XAUUSD", digits := 2, pip_position := 1,
    lot_size := 100, base_asset_id := 1, quote_asset_id := 2, volume_step := -5 }

/-- Witness for C8: the substitution fires on a negative reported step and
the resulting step is positive. -/
theorem c8_effective_step_positive_witness :
    0 < effectiveStep (some negStepSymbol) ∧
    effectiveStep (some negStepSymbol) = (MIN_LOT_SIZE : ℤ) :=
  ⟨c8_effective_step_positive.1 (some negStepSymbol),
    c8_effective_step_positive.2.2.1 negStepSymbol (by decide)⟩

/-- The is_closing_order flag is true exactly when a deal carries a
closePositionDetail that is nonempty after stripping, or an order carries a
true closingOrder flag. -/
theorem isClosingOrderOf_eq_true_iff (order : Option OrderData) (deal : Option DealData) :
    isClosingOrderOf order deal = true ↔
      (∃ d, deal = some d ∧ ∃ s, d.closePositionDetail = some s ∧ pyStrip s ≠ "") ∨
      (∃ o, order = some o ∧ o.closingOrder = true) := by
  cases order with
  | none =>
    cases deal with
    | none => simp [isClosingOrderOf]
    | some d =>
      cases hd : d.closePositionDetail with
      | none => simp [isClosingOrderOf, hd]
      | some s =>
        by_cases hs : pyStrip s = "" <;> simp [isClosingOrderOf, hd, hs]
  | some o =>
    cases deal with
    | none => simp [isClosingOrderOf]
    | some d =>
      cases hd : d.closePositionDetail with
      | none => simp [isClosingOrderOf, hd]
      | some s =>
        by_cases hs : pyStrip s = "" <;> simp [isClosingOrderOf, hd, hs]

/-- C4: a fill or partial-fill execution event is classified Close exactly
when the deal's closePositionDetail is present and nonempty after trimming
or the order's closingOrder flag is true, and is classified Open in every
other case (empty and whitespace-only details included). -/
theorem c4_classifier_close_iff (e : ExecutionEvent)
    (hfill : e.executionType = some 3 ∨ e.executionType = some 4) :
    (classifyExecution e = some Classification.close ↔
      (∃ d, e.deal = some d ∧ ∃ s, d.closePositionDetail = some s ∧ pyStrip s ≠ "") ∨
      (∃ o, e.order = some o ∧ o.closingOrder = true)) ∧
    (classifyExecution e = some Classification.openPos ↔
      ¬ ((∃ d, e.deal = some d ∧ ∃ s, d.closePositionDetail = some s ∧ pyStrip s ≠ "") ∨
        (∃ o, e.order = some o ∧ o.closingOrder = true))) := by
  rw [← isClosingOrderOf_eq_true_iff e.order e.deal]
  unfold classifyExecution
  rw [if_pos hfill]
  cases hco : isClosingOrderOf e.order e.deal <;> simp [hco]

/-- A concrete fill event whose deal carries an empty closePositionDetail
while the order's closingOrder flag is false. -/
def emptyDetailEvent : ExecutionEvent :=
  { ctidTraderAccountId := 1
    executionType := some 3
    order := some { closingOrder := false, tradeData := none }
    deal := some
      { symbolId := some 41
        tradeSide := some 1
        volume := some 1500
        closePositionDetail := some "" } }

/-- Witness for C4: the empty-detail fill event is classified Open. -/
theorem c4_classifier_close_iff_witness :
    classifyExecution emptyDetailEvent = some Classification.openPos := by
  refine ((c4_classifier_close_iff emptyDetailEvent (Or.inl rfl)).2).mpr ?_
  rintro (⟨d, hd, s, hs, hne⟩ | ⟨o, ho, hco⟩)
  · simp only [emptyDetailEvent] at hd
    cases hd
    simp only at hs
    cases hs
    exact hne (by decide)
  · simp only [emptyDetailEvent] at ho
    cases ho
    simp at hco

/-- C10: the id-name round trip getSymbolId (getSymbolName i) = i holds
exactly on the sixteen hard-coded ids; every other id gets the fallback name
SYMBOL_{i}, which maps back to the default id 1, so the open ratio for such
an instrument is stored under key 1 and a close looking it up under the real
id i sees only the default ratio 1.0. -/
theorem c10_symbol_roundtrip (i : ℕ) :
    (getSymbolId (getSymbolName i) = i ↔ i ∈ mappedSymbolIds) ∧
    (i ∉ mappedSymbolIds →
      getSymbolName i = "SYMBOL_" ++ toString i ∧
      getSymbolId (getSymbolName i) = 1 ∧
      ∀ r : ℚ, lookupRatio (storeOpenRatio [] (getSymbolName i) r) i = 1) := by
  have hname : i ∉ mappedSymbolIds → getSymbolName i = "SYMBOL_" ++ toString i := by
    intro h
    unfold getSymbolName
    rw [idToSymbol_eq_none i h]
    rfl
  have hid1 : getSymbolId ("SYMBOL_" ++ toString i) = 1 := by
    unfold getSymbolId
    rw [symbolMap_eq_none_of_long _ ?_]
    · rfl
    · rw [String.length_append]
      have h7 : ("SYMBOL_" : String).length = 7 := by decide
      omega
  constructor
  · constructor
    · intro hrt
      by_contra h
      rw [hname h, hid1] at hrt
      exact h (hrt ▸ (by decide : (1 : ℕ) ∈ mappedSymbolIds))
    · intro h
      simp only [mappedSymbolIds, List.mem_cons, List.not_mem_nil, or_false] at h
      rcases h with rfl | rfl | rfl | rfl | rfl | rfl | rfl | rfl | rfl | rfl | rfl | rfl
        | rfl | rfl | rfl | rfl <;> decide
  · intro h
    have hne1 : i ≠ 1 := fun h1 => h (h1 ▸ (by decide : (1 : ℕ) ∈ mappedSymbolIds))
    refine ⟨hname h, by rw [hname h]; exact hid1, ?_⟩
    intro r
    unfold storeOpenRatio lookupRatio
    rw [hname h, hid1]
    have hbeq : ((1 : ℕ) == i) = false := beq_eq_false_iff_ne.mpr (Ne.symm hne1)
    simp [List.find?, hbeq]

/-- Witness for C10 at the unmapped id 50: the fallback name, the collapsed
key 1, and the invisible stored ratio. -/
theorem c10_symbol_roundtrip_witness :
    getSymbolName 50 = "SYMBOL_" ++ toString 50 ∧
    getSymbolId (getSymbolName 50) = 1 ∧
    lookupRatio (storeOpenRatio [] (getSymbolName 50) (1/2)) 50 = 1 := by
  have h := (c10_symbol_roundtrip 50).2 (by decide)
  exact ⟨h.1, h.2.1, h.2.2 (1/2)⟩

/-- C6: whenever the instrument is loaded and the deposit asset is known,
and the quote asset either coincides with the deposit asset or is absent
from the loaded asset table, the pip value is 10^(-pipPosition) * lotSize,
with no dependence on the current bid or ask. -/
theorem c6_same_currency_pip_value (ctx : AccountContext) (symbolId : ℕ)
    (sd : SymbolData) (dep : ℕ) (da : AssetData)
    (hsym : ctx.symbols symbolId = some sd)
    (hdep : ctx.depositAssetId = some dep) (hdep0 : dep ≠ 0)
    (hda : ctx.assets dep = some da)
    (hq : sd.quote_asset_id = dep ∨ ctx.assets sd.quote_asset_id = none) :
    calculatePipValue ctx symbolId =
      some ((1 / (10 : ℚ) ^ sd.pip_position) * sd.lot_size) := by
  rcases hq with hq | hq
  · simp only [calculatePipValue, hsym, hdep, if_neg hdep0, hq, hda, if_pos rfl, if_true]
  · simp only [calculatePipValue, hsym, hdep, if_neg hdep0, hq, hda, if_pos rfl, if_true]

/-- A EURUSD-like instrument with pipPosition 4 and lotSize 100000 whose
quote asset is the deposit asset, with no prices subscribed. -/
def eurSymbolC6 : SymbolData :=
  { symbol_id := 1, symbol_name := "EURUSD", digits := 5, pip_position := 4,
    lot_size := 100000, base_asset_id := 1, quote_asset_id := 2,
    current_bid := 0, current_ask := 0, volume_step := 1000 }

/-- A deposit-currency asset record. -/
def usdAsset : AssetData := { asset_id := 2, name := "USD", digits := 2 }

/-- An account whose deposit asset 2 is the quote asset of instrument 1. -/
def sameCurrencyCtx : AccountContext :=
  { symbols := fun i => if i = 1 then some eurSymbolC6 else none
    assets := fun i => if i = 2 then some usdAsset else none
    depositAssetId := some 2 }

/-- Witness for C6: pipPosition 4 and lotSize 100000 give pip value 10 with
no price feed at all. -/
theorem c6_same_currency_pip_value_witness :
    calculatePipValue sameCurrencyCtx 1 = some 10 := by
  have h := c6_same_currency_pip_value sameCurrencyCtx 1 eurSymbolC6 2 usdAsset rfl rfl
    (by decide) rfl (Or.inl rfl)
  rw [h]
  norm_num [eurSymbolC6]

/-- Closed-form value of the single-connection volume adjustment: the
dynamic path never returns, so the result is always the fifty-percent
fallback. -/
theorem calcAdjustedVolume_eq_fifty_percent (ctx : CopierContext) (symbol : String)
    (originalVolume fuel : ℕ) :
    calcAdjustedVolume ctx symbol originalVolume fuel =
      max MIN_LOT_SIZE (originalVolume / 2) := by
  obtain ⟨e, he⟩ := calcDynamicPipVolume_isError ctx symbol originalVolume fuel
  unfold calcAdjustedVolume
  rw [he]
  have h2 := pyInt_natCast_div originalVolume 2
  norm_num at h2
  rw [show ((originalVolume : ℚ) * (1/2)) = (originalVolume : ℚ) / 2 by ring, h2]

/-- A gold instrument on the master side whose pip value evaluates to 84. -/
def masterGoldSymbol : SymbolData :=
  { symbol_id := 41, symbol_name := "XAUUSD", digits := 2, pip_position := 0,
    lot_size := 84, base_asset_id := 5, quote_asset_id := 2,
    current_bid := 0, current_ask := 0, volume_step := 100 }

/-- A gold instrument on the slave side whose pip value evaluates to 79. -/
def slaveGoldSymbol : SymbolData :=
  { symbol_id := 41, symbol_name := "XAUUSD", digits := 2, pip_position := 0,
    lot_size := 79, base_asset_id := 5, quote_asset_id := 2,
    current_bid := 0, current_ask := 0, volume_step := 100 }

/-- A copier state in which BOTH pip values for symbol 41 are available. -/
def goldPipCtx : CopierContext :=
  { master :=
      { symbols := fun i => if i = 41 then some masterGoldSymbol else none
        assets := fun i => if i = 2 then some usdAsset else none
        depositAssetId := some 2 }
    slave :=
      { symbols := fun i => if i = 41 then some slaveGoldSymbol else none
        assets := fun i => if i = 2 then some usdAsset else none
        depositAssetId := some 2 } }

/-- C1: with both pip values available (84 and 79) the code still returns the
fifty-percent fallback 1000 for an open of 2000 micro-units, while the
risk-multiplier formula of the spec (the commented-out block of
`_calculate_dynamic_pip_volume`) yields 1063: the replicated open volume is
NOT max(minLotSize, originalVolume * clamped riskMultiplier). -/
theorem c1_dynamic_volume_diverges_from_spec (fuel : ℕ) :
    calculatePipValue goldPipCtx.master (getSymbolId "XAUUSD") = some 84 ∧
    calculatePipValue goldPipCtx.slave (getSymbolId "XAUUSD") = some 79 ∧
    calcAdjustedVolume goldPipCtx "XAUUSD" 2000 fuel = 1000 ∧
    dynamicVolumeFormula 84 79 2000 = 1063 ∧
    (1000 : ℕ) ≠ 1063 := by
  have hsid : getSymbolId "XAUUSD" = 41 := by decide
  refine ⟨?_, ?_, ?_, ?_, by decide⟩
  · rw [hsid]
    have h := c6_same_currency_pip_value goldPipCtx.master 41 masterGoldSymbol 2 usdAsset
      rfl rfl (by decide) rfl (Or.inl rfl)
    rw [h]
    norm_num [masterGoldSymbol]
  · rw [hsid]
    have h := c6_same_currency_pip_value goldPipCtx.slave 41 slaveGoldSymbol 2 usdAsset
      rfl rfl (by decide) rfl (Or.inl rfl)
    rw [h]
    norm_num [slaveGoldSymbol]
  · rw [calcAdjustedVolume_eq_fifty_percent]
    decide
  · simp only [dynamicVolumeFormula, dynamicPipVolumeFactor, MAX_LOT_MULTIPLIER,
      MIN_LOT_SIZE]
    rw [show (84 : ℚ) / 79 * (1/2) = 42/79 by norm_num]
    have hclamp : max (min ((42 : ℚ)/79) 2) (1/1000) = 42/79 := by
      rw [min_eq_left (by norm_num), max_eq_left (by norm_num)]
    rw [hclamp]
    rw [show ((2000 : ℕ) : ℚ) * (42/79) = ((84000 : ℕ) : ℚ) / ((79 : ℕ) : ℚ) by
      push_cast
      norm_num]
    rw [pyInt_natCast_div]
    decide

/-- A copier state with no reference data loaded: pip values are
unavailable on both sides. -/
def emptyCopierCtx : CopierContext :=
  { master := { symbols := fun _ => none, assets := fun _ => none, depositAssetId := none }
    slave := { symbols := fun _ => none, assets := fun _ => none, depositAssetId := none } }

/-- C5: with pip values unavailable the copier returns 5000 for a 10000
micro-unit US30 open, ignoring the configured multiplier selection (which
would pick the table entry 0.1 and yield 1000): the fallback that would
consult the table, `_calculate_simple_multiplier_volume`, is not defined on
the class, so its AttributeError routes the call to the fifty-percent
exception fallback instead. -/
theorem c5_fallback_ignores_configured_multipliers (fuel : ℕ) :
    calculatePipValue emptyCopierCtx.master (getSymbolId "US30") = none ∧
    calcAdjustedVolume emptyCopierCtx "US30" 10000 fuel = 5000 ∧
    selectFallbackMultiplier "US30" = 1/10 ∧
    max MIN_LOT_SIZE (pyInt ((10000 : ℚ) * selectFallbackMultiplier "US30")).toNat = 1000 ∧
    (5000 : ℕ) ≠ 1000 := by
  have hsel : selectFallbackMultiplier "US30" = 1/10 := by
    simp only [selectFallbackMultiplier, GLOBAL_LOT_MULTIPLIER, LOT_SIZE_MULTIPLIERS]
    rw [if_neg (by decide : ¬ ("US30" : String) = "EURUSD"),
      if_neg (by decide : ¬ ("US30" : String) = "GBPUSD"),
      if_neg (by decide : ¬ ("US30" : String) = "USDJPY"),
      if_neg (by decide : ¬ ("US30" : String) = "USDCHF"),
      if_neg (by decide : ¬ ("US30" : String) = "AUDUSD"),
      if_neg (by decide : ¬ ("US30" : String) = "USDCAD"),
      if_neg (by decide : ¬ ("US30" : String) = "NZDUSD"),
      if_neg (by decide : ¬ ("US30" : String) = "EURGBP"),
      if_neg (by decide : ¬ ("US30" : String) = "EURJPY"),
      if_neg (by decide : ¬ ("US30" : String) = "GBPJPY"),
      if_neg (by decide : ¬ ("US30" : String) = "XAUUSD"),
      if_neg (by decide : ¬ ("US30" : String) = "GOLD"),
      if_neg (by decide : ¬ ("US30" : String) = "XAGUSD"),
      if_neg (by decide : ¬ ("US30" : String) = "SILVER"), if_true]
    rfl
  refine ⟨rfl, ?_, hsel, ?_, by decide⟩
  · rw [calcAdjustedVolume_eq_fifty_percent]
    decide
  · rw [hsel]
    rw [show (10000 : ℚ) * (1/10) = ((1000 : ℕ) : ℚ) / ((1 : ℕ) : ℚ) by push_cast; norm_num]
    rw [pyInt_natCast_div]
    decide

/-- The slave gold instrument of scenario E2E 3: broker step 1000. -/
def e3GoldSymbol : SymbolData :=
  { symbol_id := 41, symbol_name := "XAUUSD", digits := 2, pip_position := 1,
    lot_size := 100, base_asset_id := 5, quote_asset_id := 2,
    current_bid := 0, current_ask := 0, volume_step := 1000 }

/-- Slave symbol dictionary of scenario E2E 3. -/
def e3SlaveSymbols : ℕ → Option SymbolData :=
  fun i => if i = 41 then some e3GoldSymbol else none

/-- Stored open ratio 0.5 for instrument 41 (scenario E2E 3). -/
def e3Ratios : RatioMap := [(41, 1/2)]

/-- The destination position of scenario E2E 3: id 77, volume 1500. -/
def e3Position : PositionData := { positionId := 77, symbolId := 41, volume := 1500 }

/-- Destination open positions of scenario E2E 3. -/
def e3Positions : List PositionData := [e3Position]

/-- The close arithmetic of scenario E2E 3 on its own: ratio 0.5 of 1500
rounds down to 0 and the full-close override does not fire. -/
theorem computeCloseVolume_e3_eval : computeCloseVolume 1500 (1/2) 1000 1500 = 0 := by
  have hpy : pyInt (((1500 : ℤ) : ℚ) * (1/2)) = 750 := by
    rw [show (((1500 : ℤ) : ℚ) * (1/2)) = ((750 : ℤ) : ℚ) by push_cast; norm_num]
    unfold pyInt
    rw [if_pos (by positivity)]
    exact Int.floor_intCast 750
  simp only [computeCloseVolume, hpy]
  decide

/-- Evaluation of the whole close decision of scenario E2E 3: a close
request for position 77 with volume 0 is produced. -/
theorem handlePositionsForClose_e3_eval :
    handlePositionsForClose e3SlaveSymbols e3Ratios e3Positions 41 1500 =
      some (77, 0) := by
  have hfind : List.find? (fun p => p.symbolId == 41) e3Positions = some e3Position := rfl
  have hratio : lookupRatio e3Ratios 41 = 1/2 := rfl
  have hstep : effectiveStep (e3SlaveSymbols 41) = 1000 := by decide
  simp only [handlePositionsForClose, hfind]
  rw [if_pos (by decide : e3Position.positionId ≠ 0 ∧ e3Position.volume ≠ 0)]
  rw [hratio, hstep]
  rw [show e3Position.volume = 1500 from rfl, show e3Position.positionId = 77 from rfl]
  rw [computeCloseVolume_e3_eval]

/-- Counterexample for C2: in scenario E2E 3 (stored ratio 0.5, master close
1500, step 1000, destination volume 1500) the code DOES issue a close
request — `_handle_positions_for_close` sends `ProtoOAClosePositionReq`
unconditionally once a position is matched — so the claim that no close
request is issued is false; the request carries volume 0. -/
theorem c2_close_request_is_issued :
    handlePositionsForClose e3SlaveSymbols e3Ratios e3Positions 41 1500 ≠ none := by
  rw [handlePositionsForClose_e3_eval]
  exact Option.some_ne_none _

/-- C2 (amended): in scenario E2E 3 the computed close volume is
floor(1500 x 0.5) = 750 rounded down to 0, the full-close override does not
fire (1500 - 0 > 1000), and a close request with volume 0 is issued for the
matched position. -/
theorem c2_zero_volume_close_request :
    computeCloseVolume 1500 (1/2) 1000 1500 = 0 ∧
    handlePositionsForClose e3SlaveSymbols e3Ratios e3Positions 41 1500 =
      some (77, 0) :=
  ⟨computeCloseVolume_e3_eval, handlePositionsForClose_e3_eval⟩
